import Mathlib

/-!
# Verification of PyMirror (`mirror.py`)

A shallow embedding of the tree-flattening / name-encoding core of
`mirror.py`: the recursive directory walk `MirrorFiles`, the top-level
orchestration loop, the destination-name computation (line 132 of the
source), the required-settings check, the root-existence check and the
erase step.

Modelling conventions:
* A directory tree is an inductive `FsEntry`; a directory's entry list is
  the listing `os.listdir` returns, in enumeration order.  A file carries a
  `readable` flag: `readable = false` means `shutil.copyfile` raises
  `OSError` for it (the `except OSError` branch at lines 136-138).
* The observable effects of a run are a list of `Event`s: file copies
  (destination name inside the mirror folder, source path relative to the
  root), ERROR logs for failed copies, the no-extension WARNING and the
  "only folders should be in the root folder" WARNING.
* Randomized names (the 20 random letters drawn at line 132) are supplied
  by an oracle `randName` keyed by the file's relative source path; within
  one run each file is visited once, so one draw per file is exactly one
  oracle value per path.
* The regex `^(.*)\.(.*)$` with a greedy first group splits a file name at
  its **last** dot; `splitExtAux` implements exactly that split.
-/

/-- One entry of a directory listing: a plain file (with the name
`os.listdir` reports and whether copying it succeeds) or a subdirectory
with its own listing. -/
inductive FsEntry where
  | file (name : String) (readable : Bool)
  | dir (name : String) (entries : List FsEntry)
deriving Repr

/-- The settings `mirror.py` reads from `mirror_config.toml` plus the two
CLI booleans, restricted to the fields the walk consumes. -/
structure Settings where
  EXCLUSION_OVERRIDES : List String
  PRESERVE_FILE_NAMES : Bool
  PATH_SEPARATOR : String
  RANDOMIZE : Bool
  /-- Oracle for the 20-letter random names, keyed by relative source path. -/
  randName : String → String

/-- Observable effects of the walk and of the surrounding script. -/
inductive Event where
  /-- A call `shutil.copyfile` from `src` (relative to the root) to `dest`
  (inside `REAL_MIRROR_FOLDER`) succeeded, line 135. -/
  | copied (dest : String) (src : String)
  /-- The ERROR log of lines 136-138: copying `src` raised `OSError`. -/
  | errorCopy (src : String)
  /-- The WARNING log of line 124: no file name extension found. -/
  | warnNoExt (name : String)
  /-- The WARNING log of line 152: a root-level file is ignored because
  only folders should be in the root folder. -/
  | warnRootFile (name : String)
deriving DecidableEq, Repr

/-- Python's `path.split` at the slash character, on the character list:
split into the maximal slash-free chunks, keeping empty chunks. -/
def splitSlashAux (acc : List Char) : List Char → List (List Char)
  | [] => [acc.reverse]
  | c :: cs => if c = '/' then acc.reverse :: splitSlashAux [] cs else splitSlashAux (c :: acc) cs

/-- Python's `path.split` at the slash character. -/
def splitSlash (path : String) : List String :=
  (splitSlashAux [] path.toList).map String.mk

/-- Python's `name.startswith(".")`: the first character is a dot. -/
def startsWithDot (name : String) : Bool :=
  match name.toList with
  | c :: _ => c = '.'
  | [] => false

/-- Split a character list at its last dot: `some (before, after)` when a
dot exists, `none` otherwise.  This is the effect of matching
`FILE_EXTENSION_REGEX` (line 74) with its greedy first group. -/
def splitExtAux : List Char → Option (List Char × List Char)
  | [] => none
  | c :: cs =>
    match splitExtAux cs with
    | some (pre, ext) => some (c :: pre, ext)
    | none => if c = '.' then some ([], cs) else none

/-- The match at line 122 against `FILE_EXTENSION_REGEX`: `some (file_name,
extension)` on a match, `none` when the name has no dot. -/
def matchExt (name : String) : Option (String × String) :=
  (splitExtAux name.toList).map fun p => (String.mk p.1, String.mk p.2)

/-- Line 132 of `mirror.py`: when RANDOMIZE is off, the destination name
is the separator-joined path segments, a literal dot, the preserved file
name (or the enumerate index `i` when names are not preserved), a literal
dot, and the extension; when RANDOMIZE is on it is the 20 random letters,
a literal dot, and the extension.  Note that the join between the last
path segment and the name component is the literal dot of the f-string,
not `PATH_SEPARATOR`. -/
def FILE_NAME (s : Settings) (path : String) (i : Nat) (file_name extension : String)
    (src : String) : String :=
  if !s.RANDOMIZE then
    String.intercalate s.PATH_SEPARATOR (splitSlash path) ++ "."
      ++ (if s.PRESERVE_FILE_NAMES then file_name else toString i) ++ "." ++ extension
  else
    s.randName src ++ "." ++ extension

/-- The file case of the loop body of `MirrorFiles` (lines 121-138):
extension extraction with the `.unknown` fallback WARNING, destination-name
construction, and the copy attempt with its `OSError` handler. -/
def mirrorFile (s : Settings) (path : String) (i : Nat) (name : String)
    (readable : Bool) : List Event :=
  let src := path ++ "/" ++ name
  let parts :=
    match matchExt name with
    | none => (name, "unknown", true)
    | some (b, e) => (b, e, false)
  let dest := FILE_NAME s path i parts.1 parts.2.1 src
  (if parts.2.2 then [Event.warnNoExt name] else [])
    ++ (if readable then [Event.copied dest src] else [Event.errorCopy src])

mutual

/-- The body of `MirrorFiles` for one enumerated entry (lines 115-138): a
non-file recurses with the extended relative path; a file runs
`mirrorFile`.  `i` is the `enumerate` index of the entry in its parent's
full listing. -/
def MirrorEntry (s : Settings) (path : String) (i : Nat) : FsEntry → List Event
  | .file name readable => mirrorFile s path i name readable
  | .dir name sub => MirrorFiles s (path ++ "/" ++ name) 0 sub
termination_by structural e => e

/-- The function `MirrorFiles` (lines 112-140) as a function of the
listing of the directory at `path`, threading the `enumerate` index `i`. -/
def MirrorFiles (s : Settings) (path : String) (i : Nat) : List FsEntry → List Event
  | [] => []
  | e :: rest => MirrorEntry s path i e ++ MirrorFiles s path (i + 1) rest
termination_by structural l => l

end

/-- The top-level walk loop (lines 150-159): root-level files are warned
about and skipped; dot-prefixed folders not in `EXCLUSION_OVERRIDES` are
skipped; every other folder is mirrored via `MirrorFiles folder_name`. -/
def topLevel (s : Settings) (root : List FsEntry) : List Event :=
  root.flatMap fun e =>
    match e with
    | .file name _ => [Event.warnRootFile name]
    | .dir name sub =>
      if startsWithDot name && !s.EXCLUSION_OVERRIDES.contains name then []
      else MirrorFiles s name 0 sub

/-- The `(dest, src)` pairs of the successful copies among a run's events. -/
def copiedFiles (evs : List Event) : List (String × String) :=
  evs.filterMap fun e =>
    match e with
    | .copied d s => some (d, s)
    | _ => none

/-- The sources of the ERROR-logged failed copies among a run's events. -/
def errorFiles (evs : List Event) : List String :=
  evs.filterMap fun e =>
    match e with
    | .errorCopy s => some s
    | _ => none

/-! ## Tree depth and a fuel-indexed variant of the walk

The fuel-indexed `MirrorFilesFuel` charges one unit of fuel per directory
level it descends into and returns `none` when the fuel runs out, so a
proof that enough fuel always exists is exactly a bound on the recursion
depth of `MirrorFiles`. -/

mutual

/-- Nesting depth of one entry: a file is `0`; a directory is one more
than the depth of its listing. -/
def depthEntry : FsEntry → Nat
  | .file _ _ => 0
  | .dir _ sub => depthList sub + 1
termination_by structural e => e

/-- Nesting depth of a listing: the maximum over its entries. -/
def depthList : List FsEntry → Nat
  | [] => 0
  | e :: es => max (depthEntry e) (depthList es)
termination_by structural l => l

end

/-- One step of the fuel-indexed walk: process one enumerated entry, where
`recurse` is the walk available for subdirectories. -/
def processEntry (recurse : String → List FsEntry → Option (List Event))
    (s : Settings) (path : String) (i : Nat) : FsEntry → Option (List Event)
  | .file name readable => some (mirrorFile s path i name readable)
  | .dir name sub => recurse (path ++ "/" ++ name) sub

/-- The enumerated loop of the fuel-indexed walk over one listing. -/
def processList (recurse : String → List FsEntry → Option (List Event))
    (s : Settings) (path : String) : Nat → List FsEntry → Option (List Event)
  | _, [] => some []
  | i, e :: rest => do
    let h ← processEntry recurse s path i e
    let t ← processList recurse s path (i + 1) rest
    pure (h ++ t)

/-- The walk `MirrorFiles` with an explicit bound on the
directory-recursion depth: `none` means the bound was exceeded. -/
def MirrorFilesFuel (s : Settings) : Nat → String → List FsEntry → Option (List Event)
  | 0, _, _ => none
  | fuel + 1, path, es => processList (fun p l => MirrorFilesFuel s fuel p l) s path 0 es

/-! ## The surrounding script: settings check, root check, erase, walk -/

/-- A value a TOML key of `mirror_config.toml` can hold (the types the
script's settings use). -/
inductive ConfigValue where
  | str (s : String)
  | int (i : Int)
  | bool (b : Bool)
  | strList (l : List String)
deriving DecidableEq, Repr

/-- The parsed configuration dictionary: association list of key/value
pairs, `config.get k` being `List.lookup k`. -/
def RawConfig : Type := List (String × ConfigValue)

/-- Line 73 of `mirror.py`. -/
def REQUIRED_SETTINGS : List String :=
  ["ROOT_FOLDER_PATH", "EXCLUSION_OVERRIDES", "CLOSE_DELAY",
   "PRESERVE_FILE_NAMES", "MIRROR_FOLDER_PATH", "PATH_SEPARATOR"]

/-- The per-setting test of lines 87-90:
`config.get(setting) == "" or config.get(setting) is None`.  (In Python a
list, integer or boolean never compares equal to `""`, so for those only
absence triggers it.) -/
def settingMissing (c : RawConfig) (k : String) : Bool :=
  match List.lookup k c with
  | none => true
  | some v => v == ConfigValue.str ""

/-- Lines 87-90: the required settings that are missing or useless, in
`REQUIRED_SETTINGS` order; each produces one error message in
`missing_setting_errors`. -/
def missing_setting_errors (c : RawConfig) : List String :=
  REQUIRED_SETTINGS.filter (settingMissing c)

/-- Coercions the script applies implicitly when reading a setting (a
mistyped value would crash the Python script; no claim exercises that). -/
def getStr : Option ConfigValue → String
  | some (.str v) => v
  | _ => ""

def getBool : Option ConfigValue → Bool
  | some (.bool v) => v
  | _ => false

def getStrList : Option ConfigValue → List String
  | some (.strList v) => v
  | _ => []

/-- Python's `s.endswith("/")`. -/
def endsWithSlash (s : String) : Bool :=
  s.toList.getLast? == some '/'

/-- Python's `s += "/" if not s.endswith("/") else ""` (lines 96 and 100). -/
def ensureSlash (s : String) : String :=
  s ++ (if !endsWithSlash s then "/" else "")

/-- Lines 99-101: resolve the mirror folder.  The setting `"."` means the
(already slash-terminated) root folder, and the mirror directory itself is
the hidden `.Mirror` folder inside it. -/
def REAL_MIRROR_FOLDER (rootSlashed : String) (mirrorSetting : String) : String :=
  ensureSlash (if mirrorSetting == "." then rootSlashed else mirrorSetting) ++ ".Mirror/"

/-- Observable outcome of one run of the script. -/
structure RunResult where
  /-- The `exit()` at line 94 fired (missing settings). -/
  fatalConfig : Bool
  /-- The `exit()` at line 106 fired (root path does not exist). -/
  fatalRoot : Bool
  /-- The `os.mkdir(REAL_MIRROR_FOLDER)` at line 109 ran. -/
  createdMirrorDir : Bool
  /-- The erase loop of lines 143-146 ran. -/
  erased : Bool
  /-- Names present in the mirror directory after the run (destination
  names in copy order; on a collision the later write overwrote). -/
  mirrorNamesAfter : List String
  /-- Events of the walk phase. -/
  events : List Event
deriving DecidableEq, Repr

/-- The script's top level in source order: settings check (87-94), root
check (104-106), mirror-dir creation (107-109), erase loop (143-146), walk
(150-159).  `rootExists`/`mirrorExists` describe the filesystem,
`prevMirror` the mirror directory's contents before the run, `root` the
root directory's listing. -/
def runScript (c : RawConfig) (RANDOMIZE : Bool) (randName : String → String)
    (rootExists mirrorExists : Bool) (prevMirror : List String)
    (root : List FsEntry) : RunResult :=
  if !(missing_setting_errors c).isEmpty then
    ⟨true, false, false, false, prevMirror, []⟩
  else if !rootExists then
    ⟨false, true, false, false, prevMirror, []⟩
  else
    let s : Settings :=
      ⟨getStrList (List.lookup "EXCLUSION_OVERRIDES" c),
       getBool (List.lookup "PRESERVE_FILE_NAMES" c),
       getStr (List.lookup "PATH_SEPARATOR" c),
       RANDOMIZE, randName⟩
    let evs := topLevel s root
    ⟨false, false, !mirrorExists, true, (copiedFiles evs).map Prod.fst, evs⟩

/-! ## Spec-side description of which sources get mirrored -/

mutual

/-- All file paths under one entry, spec-side (“every file anywhere in
this subtree”). -/
def sourcesEntry (path : String) : FsEntry → List String
  | .file name _ => [path ++ "/" ++ name]
  | .dir name sub => sourcesList (path ++ "/" ++ name) sub
termination_by structural e => e

/-- All file paths under a listing, spec-side. -/
def sourcesList (path : String) : List FsEntry → List String
  | [] => []
  | e :: es => sourcesEntry path e ++ sourcesList path es
termination_by structural l => l

end

/-- Modelled from the spec's testable property (§8), amended to the code's
top-level policy: the files the mirror should contain are all files under
the root's non-skipped top-level directories — root-level files are not
included (they are warned about and ignored), and a top-level directory
whose name starts with `.` and is not an exclusion override contributes
nothing. -/
def specMirrorSources (s : Settings) (root : List FsEntry) : List String :=
  root.flatMap fun e =>
    match e with
    | .file _ _ => []
    | .dir name sub =>
      if startsWithDot name && !s.EXCLUSION_OVERRIDES.contains name then []
      else sourcesList name sub

mutual

/-- Every file in this entry's subtree is readable (its copy succeeds). -/
def allReadableEntry : FsEntry → Bool
  | .file _ r => r
  | .dir _ sub => allReadableList sub
termination_by structural e => e

/-- Every file under the listing is readable. -/
def allReadableList : List FsEntry → Bool
  | [] => true
  | e :: es => allReadableEntry e && allReadableList es
termination_by structural l => l

end

/-! ## Concrete fixtures used by the claim theorems -/

/-- Preserve-names settings matching the default configuration: no
exclusion overrides, `PRESERVE_FILE_NAMES = true`, `PATH_SEPARATOR` the
default two-character string, `RANDOMIZE` off. -/
def sampleSettings : Settings := ⟨[], true, "#,", false, fun _ => ""⟩

/-- Positional-mode settings: `PRESERVE_FILE_NAMES = false`, `RANDOMIZE`
off. -/
def posSettings : Settings := ⟨[], false, "#,", false, fun _ => ""⟩

/-- A configuration with every required setting present and non-empty. -/
def goodConfig : RawConfig :=
  [("ROOT_FOLDER_PATH", ConfigValue.str "root"),
   ("EXCLUSION_OVERRIDES", ConfigValue.strList [".Single"]),
   ("CLOSE_DELAY", ConfigValue.int 0),
   ("PRESERVE_FILE_NAMES", ConfigValue.bool true),
   ("MIRROR_FOLDER_PATH", ConfigValue.str "."),
   ("PATH_SEPARATOR", ConfigValue.str "#,")]

/-- A configuration whose `PATH_SEPARATOR` is the empty string and whose
`CLOSE_DELAY` key is absent: two required settings are useless/missing. -/
def badConfig : RawConfig :=
  [("ROOT_FOLDER_PATH", ConfigValue.str "root"),
   ("EXCLUSION_OVERRIDES", ConfigValue.strList []),
   ("PRESERVE_FILE_NAMES", ConfigValue.bool true),
   ("MIRROR_FOLDER_PATH", ConfigValue.str "."),
   ("PATH_SEPARATOR", ConfigValue.str "")]

/-! ## Helper lemmas -/

theorem copiedFiles_append (a b : List Event) :
    copiedFiles (a ++ b) = copiedFiles a ++ copiedFiles b := by
  simp [copiedFiles, List.filterMap_append]

theorem errorFiles_append (a b : List Event) :
    errorFiles (a ++ b) = errorFiles a ++ errorFiles b := by
  simp [errorFiles, List.filterMap_append]

theorem MirrorFiles_append (s : Settings) (path : String) (i : Nat)
    (xs ys : List FsEntry) :
    MirrorFiles s path i (xs ++ ys)
      = MirrorFiles s path i xs ++ MirrorFiles s path (i + xs.length) ys := by
  induction xs generalizing i with
  | nil => simp [MirrorFiles]
  | cons x xs ih =>
    have harith : i + 1 + xs.length = i + (xs.length + 1) := by omega
    simp only [List.cons_append, MirrorFiles, List.append_eq, List.length_cons,
      ih (i + 1), harith, List.append_assoc]

theorem mirrorFile_copied_readable (s : Settings) (path : String) (i : Nat)
    (name : String) :
    (copiedFiles (mirrorFile s path i name true)).map Prod.snd
      = [path ++ "/" ++ name] := by
  unfold mirrorFile
  cases h : matchExt name <;> simp [copiedFiles]

theorem mirrorFile_copied_unreadable (s : Settings) (path : String) (i : Nat)
    (name : String) :
    copiedFiles (mirrorFile s path i name false) = [] := by
  unfold mirrorFile
  cases h : matchExt name <;> simp [copiedFiles]

theorem mirrorFile_errors_readable (s : Settings) (path : String) (i : Nat)
    (name : String) :
    errorFiles (mirrorFile s path i name true) = [] := by
  unfold mirrorFile
  cases h : matchExt name <;> simp [errorFiles]

theorem mirrorFile_errors_unreadable (s : Settings) (path : String) (i : Nat)
    (name : String) :
    errorFiles (mirrorFile s path i name false) = [path ++ "/" ++ name] := by
  unfold mirrorFile
  cases h : matchExt name <;> simp [errorFiles]

mutual

/-- On an all-readable subtree, the walk copies exactly the files the
subtree holds, in traversal order. -/
theorem copied_sources_entry (s : Settings) (path : String) (i : Nat) (e : FsEntry)
    (h : allReadableEntry e = true) :
    (copiedFiles (MirrorEntry s path i e)).map Prod.snd = sourcesEntry path e := by
  cases e with
  | file name r =>
    have hr : r = true := by simpa [allReadableEntry] using h
    subst hr
    simpa [MirrorEntry, sourcesEntry] using mirrorFile_copied_readable s path i name
  | dir name sub =>
    have hsub : allReadableList sub = true := by simpa [allReadableEntry] using h
    simpa [MirrorEntry, sourcesEntry] using
      copied_sources_list s (path ++ "/" ++ name) 0 sub hsub
termination_by structural e

/-- On an all-readable listing, the walk copies exactly the files under
it, in traversal order. -/
theorem copied_sources_list (s : Settings) (path : String) (i : Nat)
    (es : List FsEntry) (h : allReadableList es = true) :
    (copiedFiles (MirrorFiles s path i es)).map Prod.snd = sourcesList path es := by
  cases es with
  | nil => simp [MirrorFiles, sourcesList, copiedFiles]
  | cons e rest =>
    have h1 : allReadableEntry e = true := by
      have := h; simp [allReadableList] at this; exact this.1
    have h2 : allReadableList rest = true := by
      have := h; simp [allReadableList] at this; exact this.2
    simp [MirrorFiles, sourcesList, copiedFiles_append,
      copied_sources_entry s path i e h1, copied_sources_list s path (i + 1) rest h2]
termination_by structural es

end

/-- Membership in a listing bounds the entry's depth by the listing's. -/
theorem depthEntry_le_of_mem {e : FsEntry} {es : List FsEntry} (h : e ∈ es) :
    depthEntry e ≤ depthList es := by
  induction es with
  | nil => cases h
  | cons x xs ih =>
    rcases List.mem_cons.mp h with h | h
    · subst h
      simp only [depthList]
      exact le_max_left _ _
    · simp only [depthList]
      exact (ih h).trans (le_max_right _ _)

/-- The fuel-indexed loop agrees with the walk once recursion into every
subdirectory of the listing agrees with it. -/
theorem processList_eq (s : Settings)
    (recurse : String → List FsEntry → Option (List Event))
    (path : String) (es : List FsEntry) (i : Nat)
    (hrec : ∀ name sub, FsEntry.dir name sub ∈ es →
      recurse (path ++ "/" ++ name) sub
        = some (MirrorFiles s (path ++ "/" ++ name) 0 sub)) :
    processList recurse s path i es = some (MirrorFiles s path i es) := by
  induction es generalizing i with
  | nil => simp [processList, MirrorFiles]
  | cons e rest ih =>
    have htail := ih (i + 1) (fun n sub hm => hrec n sub (List.mem_cons_of_mem _ hm))
    cases e with
    | file name r =>
      simp [processList, processEntry, MirrorFiles, MirrorEntry, htail]
    | dir name sub =>
      have hd := hrec name sub (List.mem_cons_self _ _)
      simp [processList, processEntry, MirrorFiles, MirrorEntry, hd, htail]

/-- Any fuel exceeding the listing's depth is enough: the fuel-indexed
walk returns exactly the unbounded walk's events. -/
theorem MirrorFilesFuel_sufficient (s : Settings) (fuel : Nat) :
    ∀ (path : String) (es : List FsEntry), depthList es < fuel →
      MirrorFilesFuel s fuel path es = some (MirrorFiles s path 0 es) := by
  induction fuel with
  | zero => intro path es h; omega
  | succ fuel ih =>
    intro path es h
    unfold MirrorFilesFuel
    apply processList_eq
    intro name sub hm
    apply ih
    have hle := depthEntry_le_of_mem hm
    simp [depthEntry] at hle
    omega

/-- A top-level directory that fails the check at line 154 contributes
nothing: removing it from the root listing leaves the run unchanged. -/
theorem topLevel_skip (s : Settings) (name : String) (sub pre post : List FsEntry)
    (h1 : startsWithDot name = true)
    (h2 : s.EXCLUSION_OVERRIDES.contains name = false) :
    topLevel s (pre ++ FsEntry.dir name sub :: post) = topLevel s (pre ++ post) := by
  have hmem : name ∉ s.EXCLUSION_OVERRIDES := by simpa using h2
  simp [topLevel, List.flatMap_append, h1, hmem]

/-! ## Claim theorems -/

/-- C1: the claim says that in preserve-names mode the separator is also
used between the last path segment and the base file name, so
`root/photos/2020/a.jpg` with separator `"#,"` would be mirrored as
`photos#,2020#,a.jpg` — which is also what the configuration comment
written by lines 50-51 of `mirror.py` documents.  The f-string at line 132
instead joins the last segment to the base name with a literal dot: the
code produces `photos#,2020.a.jpg`, contradicting its own documentation. -/
theorem C1_line132_joins_with_literal_dot :
    copiedFiles (topLevel sampleSettings
        [FsEntry.dir "photos" [FsEntry.dir "2020"
          [FsEntry.file "a.jpg" true, FsEntry.file "b.jpg" true]]])
      = [("photos#,2020.a.jpg", "photos/2020/a.jpg"),
         ("photos#,2020.b.jpg", "photos/2020/b.jpg")]
    ∧ "photos#,2020.a.jpg" ≠ "photos#,2020#,a.jpg" := by decide

/-- C2 (counterexample): a file placed directly in the root directory is
not mirrored — the top-level loop (lines 151-153) only warns about it —
so the mirror does not contain one file per qualifying file "including
files located directly in the root directory". -/
theorem C2_root_level_file_not_mirrored :
    topLevel sampleSettings [FsEntry.file "a.txt" true]
      = [Event.warnRootFile "a.txt"]
    ∧ copiedFiles (topLevel sampleSettings [FsEntry.file "a.txt" true]) = [] := by
  decide

/-- C2 (amended): after one run over an all-readable tree, the mirror
receives exactly one copy per file under the root's non-skipped top-level
directories; files directly in the root are ignored with a warning and
contribute nothing. -/
theorem C2_one_copy_per_qualifying_file (s : Settings) (root : List FsEntry)
    (h : allReadableList root = true) :
    (copiedFiles (topLevel s root)).map Prod.snd = specMirrorSources s root := by
  induction root with
  | nil => simp [topLevel, specMirrorSources, copiedFiles]
  | cons e rest ih =>
    have h1 : allReadableEntry e = true := by
      have := h; simp [allReadableList] at this; exact this.1
    have h2 : allReadableList rest = true := by
      have := h; simp [allReadableList] at this; exact this.2
    have htail := ih h2
    cases e with
    | file name r =>
      simp only [topLevel, List.flatMap_cons, specMirrorSources] at htail ⊢
      simpa [copiedFiles_append, copiedFiles] using htail
    | dir name sub =>
      simp only [topLevel, List.flatMap_cons, specMirrorSources] at htail ⊢
      by_cases hc : (startsWithDot name && !s.EXCLUSION_OVERRIDES.contains name) = true
      · simp only [hc, if_true, copiedFiles_append, copiedFiles, List.nil_append,
          List.filterMap_nil, List.map_nil]
        simpa [copiedFiles] using htail
      · have hb : (startsWithDot name && !s.EXCLUSION_OVERRIDES.contains name) = false := by
          revert hc
          cases startsWithDot name && !s.EXCLUSION_OVERRIDES.contains name <;> simp
        have hsub : allReadableList sub = true := by
          simpa [allReadableEntry] using h1
        simp only [hb, Bool.false_eq_true, if_false, copiedFiles_append, List.map_append,
          copied_sources_list s name 0 sub hsub]
        simpa [copiedFiles] using htail

/-- C2 (witness): the amended theorem applied to a concrete two-folder
tree. -/
theorem C2_one_copy_per_qualifying_file_witness :
    allReadableList
        [FsEntry.dir "photos" [FsEntry.file "a.jpg" true],
         FsEntry.file "stray.txt" true] = true
    ∧ (copiedFiles (topLevel sampleSettings
          [FsEntry.dir "photos" [FsEntry.file "a.jpg" true],
           FsEntry.file "stray.txt" true])).map Prod.snd
        = specMirrorSources sampleSettings
            [FsEntry.dir "photos" [FsEntry.file "a.jpg" true],
             FsEntry.file "stray.txt" true] :=
  ⟨by decide, C2_one_copy_per_qualifying_file sampleSettings _ (by decide)⟩

/-- C3 (counterexample): a dot-prefixed directory nested one level below
the top is recursed into and its file is mirrored — `MirrorFiles`
(lines 112-140) performs no dot check, so the exclusion does not hold "at
every depth of the walk". -/
theorem C3_nested_dot_dir_is_mirrored :
    copiedFiles (topLevel sampleSettings
        [FsEntry.dir "photos" [FsEntry.dir ".hidden" [FsEntry.file "a.jpg" true]]])
      = [("photos#,.hidden.a.jpg", "photos/.hidden/a.jpg")] := by decide

/-- C3 (amended): the dot-prefix exclusion is enforced only by the
top-level loop (lines 154-157): a top-level directory whose name starts
with a dot and is not an exclusion override contributes nothing to the
run, its whole subtree included. -/
theorem C3_top_level_exclusion (s : Settings) (name : String)
    (sub pre post : List FsEntry)
    (h1 : startsWithDot name = true)
    (h2 : s.EXCLUSION_OVERRIDES.contains name = false) :
    topLevel s (pre ++ FsEntry.dir name sub :: post) = topLevel s (pre ++ post) :=
  topLevel_skip s name sub pre post h1 h2

/-- C3 (witness): the amended theorem applied to a concrete root listing
with a dot-prefixed top-level folder. -/
theorem C3_top_level_exclusion_witness :
    startsWithDot ".git" = true
    ∧ sampleSettings.EXCLUSION_OVERRIDES.contains ".git" = false
    ∧ topLevel sampleSettings
        ([FsEntry.dir "d" [FsEntry.file "a.jpg" true]]
          ++ FsEntry.dir ".git" [FsEntry.file "cfg.ini" true]
            :: [FsEntry.file "top.txt" true])
        = topLevel sampleSettings
            ([FsEntry.dir "d" [FsEntry.file "a.jpg" true]]
              ++ [FsEntry.file "top.txt" true]) :=
  ⟨by decide, by decide,
    C3_top_level_exclusion sampleSettings ".git" _ _ _ (by decide) (by decide)⟩

/-- C4 (counterexample): a file with the extension `.ini` is copied into
the mirror — `MirrorFiles` contains no disqualified-extension check at
all, so the claimed invariant fails. -/
theorem C4_ini_file_is_copied :
    copiedFiles (topLevel sampleSettings [FsEntry.dir "d" [FsEntry.file "x.ini" true]])
      = [("d.x.ini", "d/x.ini")] := by decide

/-- C4 (amended): the code has no extension-disqualification step: every
readable file reached by the walk is copied exactly once, whatever its
extension (`.ini` included), with no skip and no debug log for it. -/
theorem C4_no_extension_disqualification (s : Settings) (path : String)
    (i : Nat) (name : String) :
    (copiedFiles (mirrorFile s path i name true)).map Prod.snd
      = [path ++ "/" ++ name] :=
  mirrorFile_copied_readable s path i name

/-- C5 (counterexample): with a fully valid configuration but a missing
root path, the run aborts while the mirror still holds its previous
contents — the erase loop has not run, contradicting the claim that the
mirror is left empty because "the erase step has already run". -/
theorem C5_mirror_not_erased_on_missing_root :
    runScript goodConfig false (fun _ => "") false true ["old.jpg"] []
      = ⟨false, true, false, false, ["old.jpg"], []⟩
    ∧ ["old.jpg"] ≠ ([] : List String) := by decide

/-- C5 (amended): a missing root path is fatal, and because the root check
(lines 104-106) runs before the erase loop (lines 143-146), the mirror
directory keeps its previous contents: nothing is erased, created or
copied. -/
theorem C5_missing_root_aborts_before_erase (c : RawConfig)
    (h : missing_setting_errors c = []) (RANDOMIZE : Bool)
    (randName : String → String) (mirrorExists : Bool)
    (prevMirror : List String) (root : List FsEntry) :
    runScript c RANDOMIZE randName false mirrorExists prevMirror root
      = ⟨false, true, false, false, prevMirror, []⟩ := by
  simp [runScript, h]

/-- C5 (witness): the amended theorem at a concrete valid configuration
and a stale mirror entry. -/
theorem C5_missing_root_aborts_before_erase_witness :
    missing_setting_errors goodConfig = []
    ∧ runScript goodConfig false (fun _ => "") false true ["old.jpg"]
        [FsEntry.dir "d" [FsEntry.file "a.jpg" true]]
      = ⟨false, true, false, false, ["old.jpg"], []⟩ :=
  ⟨by decide,
    C5_missing_root_aborts_before_erase goodConfig (by decide) false
      (fun _ => "") true ["old.jpg"] [FsEntry.dir "d" [FsEntry.file "a.jpg" true]]⟩

/-- C6: when any required setting is missing or is the empty string, the
run aborts at lines 91-94, before the mirror-directory creation, the
erase loop and the walk: the mirror directory's contents are untouched
and no copy or log event of the walk occurs. -/
theorem C6_missing_settings_abort_before_mutation (c : RawConfig)
    (h : missing_setting_errors c ≠ []) (RANDOMIZE : Bool)
    (randName : String → String) (rootExists mirrorExists : Bool)
    (prevMirror : List String) (root : List FsEntry) :
    runScript c RANDOMIZE randName rootExists mirrorExists prevMirror root
      = ⟨true, false, false, false, prevMirror, []⟩ := by
  have hb : (missing_setting_errors c).isEmpty = false := by
    simpa [List.isEmpty_iff] using h
  simp [runScript, hb]

/-- C6 (witness): the theorem at a configuration with an empty
`PATH_SEPARATOR` and a missing `CLOSE_DELAY`. -/
theorem C6_missing_settings_abort_witness :
    missing_setting_errors badConfig ≠ []
    ∧ runScript badConfig false (fun _ => "") true true ["keep.jpg"]
        [FsEntry.dir "d" [FsEntry.file "a.jpg" true]]
      = ⟨true, false, false, false, ["keep.jpg"], []⟩ :=
  ⟨by decide,
    C6_missing_settings_abort_before_mutation badConfig (by decide) false
      (fun _ => "") true true ["keep.jpg"] [FsEntry.dir "d" [FsEntry.file "a.jpg" true]]⟩

/-- A run of consecutive readable plain files is copied one-to-one, with
no error logs. -/
theorem readable_files_all_copied (s : Settings) (path : String) (i : Nat)
    (names : List String) :
    (copiedFiles (MirrorFiles s path i
          (names.map fun n => FsEntry.file n true))).map Prod.snd
        = names.map (fun n => path ++ "/" ++ n)
    ∧ errorFiles (MirrorFiles s path i (names.map fun n => FsEntry.file n true))
        = [] := by
  induction names generalizing i with
  | nil => simp [MirrorFiles, copiedFiles, errorFiles]
  | cons n rest ih =>
    obtain ⟨ih1, ih2⟩ := ih (i + 1)
    simp [MirrorFiles, MirrorEntry, copiedFiles_append, errorFiles_append,
      List.map_append, mirrorFile_copied_readable, mirrorFile_errors_readable,
      ih1, ih2]

/-- C7: in a directory whose listing holds readable files and exactly one
file whose copy raises `OSError`, the walk copies exactly the readable
files, logs exactly one ERROR naming the failed file, and continues past
the failure to the end of the listing without aborting. -/
theorem C7_single_failure_is_skipped (s : Settings) (path : String) (i : Nat)
    (pre post : List String) (bad : String) :
    (copiedFiles (MirrorFiles s path i
          (pre.map (fun n => FsEntry.file n true)
            ++ FsEntry.file bad false
              :: post.map (fun n => FsEntry.file n true)))).map Prod.snd
        = pre.map (fun n => path ++ "/" ++ n) ++ post.map (fun n => path ++ "/" ++ n)
    ∧ errorFiles (MirrorFiles s path i
          (pre.map (fun n => FsEntry.file n true)
            ++ FsEntry.file bad false
              :: post.map (fun n => FsEntry.file n true)))
        = [path ++ "/" ++ bad] := by
  obtain ⟨hpre1, hpre2⟩ := readable_files_all_copied s path i pre
  obtain ⟨hpost1, hpost2⟩ := readable_files_all_copied s path (i + pre.length + 1) post
  rw [MirrorFiles_append]
  constructor
  · simp [MirrorFiles, MirrorEntry, copiedFiles_append, List.map_append,
      List.length_map, hpre1, hpost1, mirrorFile_copied_unreadable]
  · simp [MirrorFiles, MirrorEntry, errorFiles_append, List.length_map,
      hpre2, hpost2, mirrorFile_errors_unreadable]

/-- C8: in positional mode (preserve-names false, randomize false) the
middle component written in place of the base file name is the enumerate
index of the entry in the parent's full listing — a readable file
preceded by `pre` entries of any kind, subdirectories included, is copied
under index `pre.length`, so the indices of the copied files need not
start at 0 nor be contiguous. -/
theorem C8_positional_index_counts_all_entries (s : Settings)
    (hp : s.PRESERVE_FILE_NAMES = false) (hr : s.RANDOMIZE = false)
    (path name base ext : String) (pre post : List FsEntry)
    (hm : matchExt name = some (base, ext)) :
    Event.copied
        (String.intercalate s.PATH_SEPARATOR (splitSlash path)
          ++ "." ++ toString pre.length ++ "." ++ ext)
        (path ++ "/" ++ name)
      ∈ MirrorFiles s path 0 (pre ++ FsEntry.file name true :: post) := by
  rw [MirrorFiles_append]
  apply List.mem_append_right
  simp only [MirrorFiles, MirrorEntry]
  apply List.mem_append_left
  simp [mirrorFile, hm, FILE_NAME, hp, hr]

/-- C8 (witness): with one subdirectory listed before the file, the file
is copied under index 1, not 0. -/
theorem C8_positional_index_witness :
    posSettings.PRESERVE_FILE_NAMES = false
    ∧ posSettings.RANDOMIZE = false
    ∧ matchExt "a.jpg" = some ("a", "jpg")
    ∧ Event.copied "d.1.jpg" "d/a.jpg"
        ∈ MirrorFiles posSettings "d" 0
            [FsEntry.dir "z" [], FsEntry.file "a.jpg" true] := by
  refine ⟨rfl, rfl, by decide, ?_⟩
  have h := C8_positional_index_counts_all_entries posSettings rfl rfl
    "d" "a.jpg" "a" "jpg" [FsEntry.dir "z" []] [] (by decide)
  have heq : (String.intercalate posSettings.PATH_SEPARATOR (splitSlash "d")
      ++ "." ++ toString (List.length [FsEntry.dir "z" []]) ++ "." ++ "jpg")
      = "d.1.jpg" := by decide
  rw [heq] at h
  simpa using h

/-- C9: with the mirror folder setting `"."` the mirror directory resolves
to the dot-prefixed `.Mirror` folder inside the root, and the top-level
loop skips any top-level directory named `.Mirror` whenever `.Mirror` is
not an exclusion override: the mirror's own contents are never walked,
so the mirror never feeds back into itself. -/
theorem C9_mirror_folder_never_walked (s : Settings)
    (h : s.EXCLUSION_OVERRIDES.contains ".Mirror" = false)
    (rootSlashed : String) (pre post sub : List FsEntry) :
    REAL_MIRROR_FOLDER rootSlashed "." = ensureSlash rootSlashed ++ ".Mirror/"
    ∧ topLevel s (pre ++ FsEntry.dir ".Mirror" sub :: post)
        = topLevel s (pre ++ post) :=
  ⟨by simp [REAL_MIRROR_FOLDER],
   topLevel_skip s ".Mirror" sub pre post (by decide) h⟩

/-- C9 (witness): the theorem at the default settings and a concrete root
listing holding the `.Mirror` folder itself. -/
theorem C9_mirror_folder_never_walked_witness :
    sampleSettings.EXCLUSION_OVERRIDES.contains ".Mirror" = false
    ∧ REAL_MIRROR_FOLDER "root/" "." = ensureSlash "root/" ++ ".Mirror/"
    ∧ topLevel sampleSettings
        ([FsEntry.dir "d" [FsEntry.file "a.jpg" true]]
          ++ FsEntry.dir ".Mirror" [FsEntry.file "m.jpg" true] :: [])
      = topLevel sampleSettings ([FsEntry.dir "d" [FsEntry.file "a.jpg" true]] ++ []) :=
  ⟨by decide,
   (C9_mirror_folder_never_walked sampleSettings (by decide) "root/"
      [FsEntry.dir "d" [FsEntry.file "a.jpg" true]] []
      [FsEntry.file "m.jpg" true]).1,
   (C9_mirror_folder_never_walked sampleSettings (by decide) "root/"
      [FsEntry.dir "d" [FsEntry.file "a.jpg" true]] []
      [FsEntry.file "m.jpg" true]).2⟩

/-- C10: each recursive call of the walk descends into a strict
subdirectory, so on any finite tree the fuel-indexed walk already
succeeds with fuel one more than the listing's depth and returns exactly
the unbounded walk's events: `MirrorFiles` terminates with recursion
depth bounded by the depth of the tree. -/
theorem C10_recursion_depth_bounded_by_tree_depth (s : Settings)
    (path : String) (es : List FsEntry) :
    MirrorFilesFuel s (depthList es + 1) path es
      = some (MirrorFiles s path 0 es) :=
  MirrorFilesFuel_sufficient s (depthList es + 1) path es (by omega)
